import Mathlib

/-!
Verification of the YT-summarizer core pipeline (video-id resolution,
summary assembly, PDF layout) against its TypeScript source.

Strings are modelled as `List Char` (with `String` wrappers). Timestamps are
exact rationals (`Rat`). The PDF layout arithmetic is modelled over `Int`:
every constant the source computes is an exact integer (`lineHeight * 1.5 =
15`, `lineHeight / 2 = 5`, `splitText.length * 6 + lineHeight`, …), written
here as `lineHeight * 3 / 2` and `lineHeight / 2` with exact integer
division. JS `Array.prototype.sort` is modelled as a stable sort (stability
is mandated by the ECMAScript specification) via `List.insertionSort`.
-/

namespace YTSum

/-- `type` field of `TimeStampedContent` (src/unnamed/part_000). -/
inductive ContentType
  | text
  | code
  | key_point
deriving DecidableEq

/-- `TimeStampedContent` from src/unnamed/part_000. -/
structure TimeStampedContent where
  timestamp : Rat
  text : String
  type : ContentType
  language : Option String := none
deriving DecidableEq

/-- `VideoDetails` from src/unnamed/part_000 (the optional caption fields are
not consulted by the code under verification). -/
structure VideoDetails where
  title : String
  description : String
  thumbnail : String
  channel : String
  duration : String
deriving DecidableEq

/-- `SummaryContent` from src/unnamed/part_000. -/
structure SummaryContent where
  text : String
  code : List String
  links : List String
  imageReferences : List String
  timestamps : List TimeStampedContent
  keyPoints : List TimeStampedContent
  transcriptSummary : Option String
deriving DecidableEq

/-- Shape of the value returned by `processTranscript` (the captions service
itself is external to this slice; `generateSummary` in src/unnamed/part_005
reads exactly the fields `summary`, `keyPoints` and `codeBlocks`). -/
structure ProcessedContent where
  summary : String
  keyPoints : List TimeStampedContent
  codeBlocks : List TimeStampedContent
deriving DecidableEq

/-- Error raised by caption fetching / transcript processing (§7 of the spec:
`CaptionProcessingError`); carries its cause as a message. -/
inductive CaptionError
  | fetchFailed (msg : String)
  | processFailed (msg : String)
deriving DecidableEq

/-! ## VideoIdResolver

`extractVideoID` (src/unnamed/part_005, lines 8-14) matches
`/^.*((youtu.be\/)|(v\/)|(\/u\/\w\/)|(embed\/)|(watch\?))\??v?=?([^#&?]*).*/`.
The leading greedy `.*` (which cannot cross a newline) makes the alternation
group match at the *last* position where one of the five URL-shape
alternatives occurs before the first newline; everything after the group is
optional, so the overall match succeeds whenever the group matches; then the
optional `?`, `v`, `=` are consumed greedily and group 7 is the maximal run of
characters other than `#`, `&`, `?`. -/

/-- JS `\w`: `[A-Za-z0-9_]`. -/
def isWordChar (c : Char) : Bool :=
  (('a' ≤ c ∧ c ≤ 'z') ∨ ('A' ≤ c ∧ c ≤ 'Z') ∨ ('0' ≤ c ∧ c ≤ '9') ∨ c = '_')

/-- Character class `[a-zA-Z0-9_-]` used by the bare-id test of
`extractYouTubeVideoId` (src/src/services/supabaseService.ts). -/
def isIdChar (c : Char) : Bool :=
  isWordChar c || c = '-'

/-- `youtu.be/` at the head of `cs`: the literal `youtu`, then any character
other than a newline (the unescaped `.` of the regex), then the literal
`be/`. The take/drop equalities force `cs` to be long enough. -/
def isYoutuBeShape (cs : List Char) : Bool :=
  cs.take 5 == ['y', 'o', 'u', 't', 'u'] &&
  !((cs.drop 5).take 1 == ['\n']) &&
  (cs.drop 6).take 3 == ['b', 'e', '/']

/-- `\/u\/\w\/` at the head of `cs`: literal `/u/`, then one word character,
then `/`. -/
def isUSlashShape (cs : List Char) : Bool :=
  cs.take 3 == ['/', 'u', '/'] &&
  ((cs.drop 3).take 1).all isWordChar &&
  (cs.drop 4).take 1 == ['/']

/-- Does one of the five alternatives `(youtu.be\/)|(v\/)|(\/u\/\w\/)|(embed\/)|(watch\?)`
match at the head of `cs`? Returns the length it consumes. The five
alternatives start with pairwise distinct characters, so at most one matches
at a position and the alternation order is immaterial. -/
def altLen (cs : List Char) : Option Nat :=
  if isYoutuBeShape cs then some 9
  else if cs.take 2 == ['v', '/'] then some 2
  else if isUSlashShape cs then some 5
  else if cs.take 6 == ['e', 'm', 'b', 'e', 'd', '/'] then some 6
  else if cs.take 6 == ['w', 'a', 't', 'c', 'h', '?'] then some 6
  else none

/-- Suffix of the input that follows the alternation group, matched at the
*last* possible position (the greedy `^.*` backtracks from the right), with no
position past the first newline considered (JS `.` does not match `\n`). -/
def lastAltMatch : List Char → Option (List Char)
  | [] => none
  | c :: cs =>
    if c = '\n' then none
    else
      match lastAltMatch cs with
      | some r => some r
      | none =>
        match altLen (c :: cs) with
        | some n => some ((c :: cs).drop n)
        | none => none

/-- Greedy optional single-character match (`\??`, `v?`, `=?`). -/
def consumeOpt (c : Char) (cs : List Char) : List Char :=
  match cs with
  | x :: xs => if x = c then xs else x :: xs
  | [] => []

/-- Complement of the class `[#&?]` (group 7 is `([^#&?]*)`, greedy). -/
def notStopChar (c : Char) : Bool :=
  !(c == '#' || c == '&' || c == '?')

/-- Group 7 of the URL regex: after the alternation group, consume optional
`?`, `v`, `=`, then take the maximal run of non-`#&?` characters. -/
def captureGroup7 (rest : List Char) : List Char :=
  (consumeOpt '=' (consumeOpt 'v' (consumeOpt '?' rest))).takeWhile notStopChar

/-- The regex pipeline shared by both resolvers: `null` unless the alternation
matches somewhere and the captured group has exactly 11 characters. -/
def regexExtract (cs : List Char) : Option (List Char) :=
  match lastAltMatch cs with
  | none => none
  | some rest =>
    let g7 := captureGroup7 rest
    if g7.length = 11 then some g7 else none

/-- `extractVideoID` from src/unnamed/part_005 lines 8-14
(`if (!url) return null` then the regex match). -/
def extractVideoIDL (cs : List Char) : Option (List Char) :=
  if cs.isEmpty then none
  else regexExtract cs

/-- String-level wrapper for `extractVideoID`. -/
def extractVideoID (s : String) : Option String :=
  (extractVideoIDL s.data).map String.mk

/-- `extractYouTubeVideoId` from src/src/services/supabaseService.ts lines
94-105: the empty-string guard, then the explicit bare 11-character-id branch
(`/^[a-zA-Z0-9_-]{11}$/`), then the same regex as `extractVideoID` (the extra
`match[7] &&` truthiness test is subsumed by the length-11 test, since only
the empty string is falsy). -/
def extractYouTubeVideoIdL (cs : List Char) : Option (List Char) :=
  if cs.isEmpty then none
  else if cs.length = 11 && cs.all isIdChar then some cs
  else regexExtract cs

/-- String-level wrapper for `extractYouTubeVideoId`. -/
def extractYouTubeVideoId (s : String) : Option String :=
  (extractYouTubeVideoIdL s.data).map String.mk

/-- `getEmbedUrl` from src/unnamed/part_005 lines 257-260. -/
def getEmbedUrl (url : String) : String :=
  match extractVideoID url with
  | some id => "https://www.youtube.com/embed/" ++ id
  | none => ""

/-! ## SummaryAssembler (`generateSummary`, src/unnamed/part_005 lines 42-95) -/

/-- Comparator key order used by
`[...keyPoints, ...codeBlocks].sort((a, b) => a.timestamp - b.timestamp)`. -/
def tsLe (a b : TimeStampedContent) : Prop :=
  a.timestamp ≤ b.timestamp

instance : DecidableRel tsLe := fun a b =>
  inferInstanceAs (Decidable (a.timestamp ≤ b.timestamp))

instance : IsTotal TimeStampedContent tsLe :=
  ⟨fun a b => le_total a.timestamp b.timestamp⟩

instance : IsTrans TimeStampedContent tsLe :=
  ⟨fun _ _ _ h h' => le_trans h h'⟩

/-- JS `Array.prototype.sort` with comparator `(a, b) => a.timestamp - b.timestamp`:
a stable sort by ascending timestamp (stability is mandated by the ECMAScript
specification); modelled by Mathlib's stable `List.insertionSort`. -/
def jsSortByTimestamp (l : List TimeStampedContent) : List TimeStampedContent :=
  List.insertionSort tsLe l

/-- The template-literal fallback summary text (src/unnamed/part_005 lines
74-76), byte-for-byte including the indentation line inside the literal. -/
def fallbackText (vd : VideoDetails) : String :=
  "This video titled \"" ++ vd.title ++ "\" by " ++ vd.channel ++
  " provides a comprehensive overview of the topic.\n      \nThe content is structured to help viewers understand the subject matter through clear explanations and examples. The presenter breaks down complex concepts into digestible segments, making it easier for the audience to follow along."

/-- JS `x || d` for `x : string | undefined`: both `undefined` and the empty
string are falsy. -/
def jsOrString (o : Option String) (d : String) : String :=
  match o with
  | some s => if s = "" then d else s
  | none => d

/-- Canonical watch URL built at the top of `generateSummary` (line 44). -/
def watchUrl (videoId : String) : String :=
  "https://www.youtube.com/watch?v=" ++ videoId

/-- Channel link built in the `links` field (line 80). -/
def channelUrl (vd : VideoDetails) : String :=
  "https://www.youtube.com/channel/" ++ vd.channel

/-- `generateSummary` from src/unnamed/part_005 lines 42-95.

`vd` is the (successful) result of the external `getVideoDetails` fetch.
`apiKey` models `import.meta.env.VITE_YOUTUBE_API_KEY`; `captionFetch` models
the combined outcome of `fetchCaptions` + `processTranscript`. When the key is
absent or the caption stage throws, the inner `try/catch` swallows the error
and the locals keep their initial values (`undefined` / empty arrays), exactly
as in the source. -/
def generateSummary (videoId : String) (vd : VideoDetails) (apiKey : Option String)
    (captionFetch : Except CaptionError ProcessedContent) : SummaryContent :=
  let processed : Option ProcessedContent :=
    match apiKey, captionFetch with
    | some _, .ok pc => some pc
    | _, _ => none
  let transcriptSummary : Option String := processed.map (·.summary)
  let keyPoints : List TimeStampedContent := (processed.map (·.keyPoints)).getD []
  let timestamps : List TimeStampedContent :=
    (processed.map (fun pc => jsSortByTimestamp (pc.keyPoints ++ pc.codeBlocks))).getD []
  let codeSnippets : List String :=
    (processed.map (fun pc => pc.codeBlocks.map (·.text))).getD []
  { text := jsOrString transcriptSummary (fallbackText vd)
    code := codeSnippets
    links := [watchUrl videoId, channelUrl vd]
    imageReferences := [vd.thumbnail]
    timestamps := timestamps
    keyPoints := keyPoints
    transcriptSummary := transcriptSummary }

/-- The merge performed by `handleSubmit` in src/src/pages/Index.tsx lines
44-53: `[...(summary.imageReferences || []), ...supabaseImages]`. -/
def combineImageReferences (summaryRefs supabaseImages : List String) : List String :=
  summaryRefs ++ supabaseImages

/-! ## PDFRenderer (`generatePDF`, src/unnamed/part_005 lines 97-255) -/

/-- The markdown fence delimiter character (U+0060). -/
def fenceChar : Char := Char.ofNat 96

/-- JS `codeSnippet.replace(/```\w*\n|```/g, "")` (line 177): a global
left-to-right scan; at each position the first alternative (a fence, an
optional word-run language tag, then a newline) is tried first, the bare
fence second; on a match scanning resumes after the removed text, otherwise
the character is kept and the scan advances by one. `\w` cannot match `\n`,
so the backtracking of `\w*` reduces to taking the maximal word run and
testing for a following newline. -/
def stripFencesAux : Nat → List Char → List Char
  | 0, cs => cs
  | fuel + 1, cs =>
    match cs with
    | c1 :: c2 :: c3 :: rest =>
      if c1 = fenceChar && c2 = fenceChar && c3 = fenceChar then
        match rest.dropWhile isWordChar with
        | '\n' :: rest3 => stripFencesAux fuel rest3
        | _ => stripFencesAux fuel rest
      else
        c1 :: stripFencesAux fuel (c2 :: c3 :: rest)
    | c1 :: rest1 => c1 :: stripFencesAux fuel rest1
    | [] => []

/-- Entry point: each scan step shortens the list by at least one character,
so `cs.length` steps of fuel always suffice (the fuel only makes the
recursion structural; it is never exhausted before the scan ends). -/
def stripFences (cs : List Char) : List Char :=
  stripFencesAux cs.length cs

/-- JS `codeSnippet.match(/```(\w+)/)` (line 174): the first position with a
fence followed by at least one word character; the capture is the maximal
word run there (greedy `\w+` with nothing after it). On failure the scan
advances one character. -/
def findLang : List Char → Option (List Char)
  | [] => none
  | c :: rest =>
    if c = fenceChar then
      match rest with
      | c2 :: c3 :: r2 =>
        if c2 = fenceChar && c3 = fenceChar then
          let ws := r2.takeWhile isWordChar
          if ws.isEmpty then findLang rest else some ws
        else findLang rest
      | _ => findLang rest
    else findLang rest

/-- `languageMatch ? languageMatch[1] : 'code'` (line 175). -/
def languageOf (snippet : String) : String :=
  ((findLang snippet.data).map String.mk).getD "code"

/-- JS `summary.text.split('\n\n')` (line 149): non-overlapping left-to-right
split on the two-newline separator. -/
def splitOnDoubleNL : List Char → List (List Char)
  | [] => [[]]
  | '\n' :: '\n' :: rest => [] :: splitOnDoubleNL rest
  | c :: rest =>
    match splitOnDoubleNL rest with
    | p :: ps => (c :: p) :: ps
    | [] => [[c]]

/-- Kind of a logical block written by `generatePDF`. -/
inductive BlockKind
  | sectionHeader
  | paragraph
  | codeSnippet
  | linkEntry
  | imageEntry
deriving DecidableEq

/-- Ghost trace entry recorded for each block that `generatePDF` guards with
`checkPageBreak`: the cursor before the check, the `neededSpace` passed to the
check, whether a page break fired, the cursor the block is then written at,
the total cursor displacement of the block, and the text lines written. -/
structure BlockEvent where
  kind : BlockKind
  yBefore : Int
  checked : Int
  broke : Bool
  yWrite : Int
  advance : Int
  lines : List String
deriving DecidableEq

/-- Document state threaded through `generatePDF`: the `yPosition` cursor,
the number of `doc.addPage()` calls, and the ghost trace. -/
structure RenderState where
  y : Int
  pageCount : Nat
  events : List BlockEvent
deriving DecidableEq

/-- `checkPageBreak` from src/unnamed/part_005 lines 110-117. -/
def checkPageBreak (pageHeight neededSpace : Int) (st : RenderState) :
    RenderState × Bool :=
  if st.y + neededSpace > pageHeight - 20 then
    ({ st with y := 20, pageCount := st.pageCount + 1 }, true)
  else
    (st, false)

/-- One `checkPageBreak`-guarded block: run the check with `checked`, write at
the resulting cursor, advance the cursor by `advance`, record the event. -/
def emitBlock (pageHeight : Int) (k : BlockKind) (checked advance : Int)
    (ls : List String) (st : RenderState) : RenderState :=
  let res := checkPageBreak pageHeight checked st
  { y := res.1.y + advance
    pageCount := res.1.pageCount
    events := res.1.events ++
      [{ kind := k, yBefore := st.y, checked := checked, broke := res.2,
         yWrite := res.1.y, advance := advance, lines := ls }] }

/-- `lineHeight` (line 104). -/
def lineHeight : Int := 10

/-- `maxWidth` (line 106). -/
def maxWidth : Int := 180

/-- Lines 119-146: title (advance `lineHeight * 3 / 2`), channel (`lineHeight`),
duration (`lineHeight * 3 / 2`), horizontal rule (`lineHeight`), `Summary`
heading (`lineHeight`), starting from `yPosition = 20`; no page-break checks
occur in this part of the source. -/
def renderHeader : RenderState :=
  let st0 : RenderState := { y := 20, pageCount := 0, events := [] }
  let st1 : RenderState := { st0 with y := st0.y + lineHeight * 3 / 2 }
  let st2 : RenderState := { st1 with y := st1.y + lineHeight }
  let st3 : RenderState := { st2 with y := st2.y + lineHeight * 3 / 2 }
  let st4 : RenderState := { st3 with y := st3.y + lineHeight }
  { st4 with y := st4.y + lineHeight }

/-- Lines 148-157: each paragraph of `summary.text.split('\n\n')` is wrapped,
checked with `splitText.length * 6 + lineHeight` and advances the same. -/
def renderParagraphs (text : String) (split : String → Int → List String)
    (pageHeight : Int) (st : RenderState) : RenderState :=
  ((splitOnDoubleNL text.data).map String.mk).foldl
    (fun st p =>
      let splitText := split p maxWidth
      emitBlock pageHeight .paragraph ((splitText.length : Int) * 6 + lineHeight)
        ((splitText.length : Int) * 6 + lineHeight) splitText st)
    st

/-- Lines 159-193: if there are code snippets, the `Code Snippets` heading
(checked `lineHeight * 2`, advance `lineHeight / 2 + lineHeight`), then per
snippet the check `splitCode.length * 5 + lineHeight * 2` followed by the
`Language:` label (advance `lineHeight`) and the fence-stripped wrapped code
(advance `splitCode.length * 5 + lineHeight * 3 / 2`). -/
def renderCodeSection (code : List String) (split : String → Int → List String)
    (pageHeight : Int) (st : RenderState) : RenderState :=
  if code.length > 0 then
    code.foldl
      (fun st snippet =>
        let splitCode := split (String.mk (stripFences snippet.data)) maxWidth
        emitBlock pageHeight .codeSnippet ((splitCode.length : Int) * 5 + lineHeight * 2)
          (lineHeight + (splitCode.length : Int) * 5 + lineHeight * 3 / 2)
          (("Language: " ++ languageOf snippet) :: splitCode) st)
      (emitBlock pageHeight .sectionHeader (lineHeight * 2)
        (lineHeight / 2 + lineHeight) ["Code Snippets"] st)
  else st

/-- Lines 195-217: if there are links, the `Referenced Links` heading
(checked `lineHeight * 2`, advance `lineHeight`), then per link the check
`lineHeight * 3 / 2` and an advance of `splitLink.length * 6 + 2`. -/
def renderLinksSection (links : List String) (split : String → Int → List String)
    (pageHeight : Int) (st : RenderState) : RenderState :=
  if links.length > 0 then
    links.foldl
      (fun st link =>
        let splitLink := split link maxWidth
        emitBlock pageHeight .linkEntry (lineHeight * 3 / 2)
          ((splitLink.length : Int) * 6 + 2) splitLink st)
      (emitBlock pageHeight .sectionHeader (lineHeight * 2)
        lineHeight ["Referenced Links"] st)
  else st

/-- Lines 219-237: if there are image references, the `Image References`
heading (checked `lineHeight * 2`, advance `lineHeight`), then per entry the
check `lineHeight` and an advance of `lineHeight`. -/
def renderImagesSection (imageReferences : List String)
    (pageHeight : Int) (st : RenderState) : RenderState :=
  if imageReferences.length > 0 then
    imageReferences.foldl
      (fun st img => emitBlock pageHeight .imageEntry lineHeight lineHeight [img] st)
      (emitBlock pageHeight .sectionHeader (lineHeight * 2)
        lineHeight ["Image References"] st)
  else st

/-- The cursor walk of `generatePDF` (src/unnamed/part_005 lines 97-255).
`split` models jsPDF's external `doc.splitTextToSize` (text wrapping at a
given width); `pageHeight` models `doc.internal.pageSize.height`. The
sections run in source order: header, summary paragraphs, code snippets,
links, image references. -/
def renderLayout (vd : VideoDetails) (summary : SummaryContent)
    (split : String → Int → List String) (pageHeight : Int) : RenderState :=
  renderImagesSection summary.imageReferences pageHeight
    (renderLinksSection summary.links split pageHeight
      (renderCodeSection summary.code split pageHeight
        (renderParagraphs summary.text split pageHeight renderHeader)))

/-- Error taxonomy of §7 of the spec. -/
inductive AppError
  | invalidUrl
  | metadataFetch
  | captionProcessing
  | imageReference
  | pdfGeneration
deriving DecidableEq

/-- The binary artifact produced by `doc.output('blob')` (line 249), modelled
as the final document state plus the embedded metadata title (line 241). -/
structure PDFBlob where
  doc : RenderState
  metaTitle : String
deriving DecidableEq

/-- `generatePDF` from src/unnamed/part_005 lines 97-255. The whole body sits
in one `try`; `internalFault` models a throw from the external jsPDF engine
anywhere inside it. The `catch` replaces any such error with the single
`new Error('Failed to generate PDF')` (line 253), modelled as
`AppError.pdfGeneration`; on success the blob is returned. -/
def generatePDF (vd : VideoDetails) (summary : SummaryContent)
    (split : String → Int → List String) (pageHeight : Int)
    (internalFault : Option String) : Except AppError PDFBlob :=
  match internalFault with
  | some _ => .error .pdfGeneration
  | none =>
    .ok { doc := renderLayout vd summary split pageHeight
          metaTitle := vd.title ++ " - Summary" }

/-! ## Lemmas about the resolvers -/

/-- A non-`none` result of the regex pipeline has exactly 11 characters. -/
theorem regexExtract_length {cs r : List Char} (h : regexExtract cs = some r) :
    r.length = 11 := by
  unfold regexExtract at h
  cases hm : lastAltMatch cs with
  | none => rw [hm] at h; exact absurd h (by simp)
  | some rest =>
    rw [hm] at h
    simp only at h
    split at h
    · rename_i hlen
      cases h
      exact hlen
    · cases h

/-- Every URL-shape alternative of the regex contains a `/` or a `?`. -/
theorem altLen_has_url_char {cs : List Char} {n : Nat} (h : altLen cs = some n) :
    '/' ∈ cs ∨ '?' ∈ cs := by
  unfold altLen at h
  split_ifs at h with h1 h2 h3 h4 h5
  · left
    unfold isYoutuBeShape at h1
    rw [Bool.and_eq_true, Bool.and_eq_true] at h1
    have h3 : (cs.drop 6).take 3 = ['b', 'e', '/'] := by
      have := h1.2
      exact eq_of_beq this
    have : '/' ∈ (cs.drop 6).take 3 := by rw [h3]; simp
    exact List.mem_of_mem_drop (List.mem_of_mem_take this)
  · left
    have h2' : cs.take 2 = ['v', '/'] := eq_of_beq h2
    have : '/' ∈ cs.take 2 := by rw [h2']; simp
    exact List.mem_of_mem_take this
  · left
    unfold isUSlashShape at h3
    rw [Bool.and_eq_true, Bool.and_eq_true] at h3
    have h3' : cs.take 3 = ['/', 'u', '/'] := eq_of_beq h3.1.1
    have : '/' ∈ cs.take 3 := by rw [h3']; simp
    exact List.mem_of_mem_take this
  · left
    have h4' : cs.take 6 = ['e', 'm', 'b', 'e', 'd', '/'] := eq_of_beq h4
    have : '/' ∈ cs.take 6 := by rw [h4']; simp
    exact List.mem_of_mem_take this
  · right
    have h5' : cs.take 6 = ['w', 'a', 't', 'c', 'h', '?'] := eq_of_beq h5
    have : '?' ∈ cs.take 6 := by rw [h5']; simp
    exact List.mem_of_mem_take this

/-- On input without `/` and `?` the alternation group never matches. -/
theorem lastAltMatch_eq_none {cs : List Char}
    (h : ∀ c ∈ cs, c ≠ '/' ∧ c ≠ '?') : lastAltMatch cs = none := by
  induction cs with
  | nil => rfl
  | cons c cs ih =>
    unfold lastAltMatch
    by_cases hnl : c = '\n'
    · simp [hnl]
    · rw [if_neg hnl, ih (fun x hx => h x (List.mem_cons_of_mem _ hx))]
      cases ha : altLen (c :: cs) with
      | none => rfl
      | some n =>
        rcases altLen_has_url_char ha with hm | hm
        · exact absurd rfl (h _ hm).1
        · exact absurd rfl (h _ hm).2

/-- Characters of the bare-id class are neither `/` nor `?`. -/
theorem isIdChar_not_url_char {c : Char} (h : isIdChar c = true) :
    c ≠ '/' ∧ c ≠ '?' := by
  constructor
  · intro he; rw [he] at h; exact absurd h (by decide)
  · intro he; rw [he] at h; exact absurd h (by decide)

/-- C3 (amended): on a bare 11-character id over `[A-Za-z0-9_-]`,
`extractYouTubeVideoId` returns the input unchanged through its explicit
bare-id branch, but `extractVideoID` returns `null`: its regex only matches
when one of the URL-shape markers (each containing `/` or `?`) occurs in the
input, and no such character can occur in a bare id. -/
theorem bareId_resolution (cs : List Char) (h11 : cs.length = 11)
    (hid : cs.all isIdChar = true) :
    extractYouTubeVideoIdL cs = some cs ∧ extractVideoIDL cs = none := by
  have hne : cs.isEmpty = false := by
    cases cs with
    | nil => simp at h11
    | cons a l => rfl
  have hnone : lastAltMatch cs = none := by
    apply lastAltMatch_eq_none
    intro c hc
    exact isIdChar_not_url_char (by
      have := List.all_eq_true.mp hid c hc
      exact this)
  constructor
  · unfold extractYouTubeVideoIdL
    rw [hne]
    simp [h11, hid]
  · unfold extractVideoIDL regexExtract
    rw [hne, hnone]
    simp

/-- Witness: the amended C3 at the concrete bare id `dQw4w9WgXcQ`. -/
theorem bareId_resolution_witness :
    extractYouTubeVideoIdL "dQw4w9WgXcQ".data = some "dQw4w9WgXcQ".data ∧
    extractVideoIDL "dQw4w9WgXcQ".data = none :=
  bareId_resolution "dQw4w9WgXcQ".data (by decide) (by decide)

/-- C3 counterexample: the claim says every resolver returns a bare
11-character id unchanged, but `extractVideoID` returns `null` on
`"dQw4w9WgXcQ"`. -/
theorem extractVideoID_rejects_bare_id :
    extractVideoID "dQw4w9WgXcQ" = none ∧
    "dQw4w9WgXcQ".length = 11 ∧ "dQw4w9WgXcQ".data.all isIdChar = true := by
  refine ⟨?_, by decide, by decide⟩
  decide

/-- C4: `getEmbedUrl` composes exactly from `extractVideoID` — the embed
prefix is prepended to the id on success and the empty string is returned on
failure — and behaves as specified on the scenario input
`https://youtu.be/dQw4w9WgXcQ`. -/
theorem getEmbedUrl_spec :
    (∀ url id, extractVideoID url = some id →
      getEmbedUrl url = "https://www.youtube.com/embed/" ++ id) ∧
    (∀ url, extractVideoID url = none → getEmbedUrl url = "") ∧
    extractVideoID "https://youtu.be/dQw4w9WgXcQ" = some "dQw4w9WgXcQ" ∧
    getEmbedUrl "https://youtu.be/dQw4w9WgXcQ" =
      "https://www.youtube.com/embed/dQw4w9WgXcQ" := by
  refine ⟨?_, ?_, by decide, by decide⟩
  · intro url id h
    unfold getEmbedUrl
    rw [h]
  · intro url h
    unfold getEmbedUrl
    rw [h]

/-- Witness: C4 applied at the scenario input and at the empty string. -/
theorem getEmbedUrl_spec_witness :
    getEmbedUrl "https://youtu.be/dQw4w9WgXcQ" =
      "https://www.youtube.com/embed/dQw4w9WgXcQ" ∧
    getEmbedUrl "" = "" :=
  ⟨getEmbedUrl_spec.1 _ "dQw4w9WgXcQ" getEmbedUrl_spec.2.2.1,
   getEmbedUrl_spec.2.1 "" (by decide)⟩

/-- C10: both resolvers return `null` or a string of exactly 11 characters,
and both return `null` on the empty string. -/
theorem resolver_length_invariant (s : String) :
    (∀ r : String, extractVideoID s = some r → r.length = 11) ∧
    (∀ r : String, extractYouTubeVideoId s = some r → r.length = 11) ∧
    extractVideoID "" = none ∧ extractYouTubeVideoId "" = none := by
  refine ⟨?_, ?_, by decide, by decide⟩
  · intro r h
    unfold extractVideoID at h
    cases he : extractVideoIDL s.data with
    | none => rw [he] at h; cases h
    | some l =>
      rw [he] at h
      cases h
      unfold extractVideoIDL at he
      split at he
      · cases he
      · rw [String.length_mk]
        exact regexExtract_length he
  · intro r h
    unfold extractYouTubeVideoId at h
    cases he : extractYouTubeVideoIdL s.data with
    | none => rw [he] at h; cases h
    | some l =>
      rw [he] at h
      cases h
      unfold extractYouTubeVideoIdL at he
      split at he
      · cases he
      · split at he
        · rename_i hcond
          cases he
          rw [String.length_mk]
          rw [Bool.and_eq_true] at hcond
          exact of_decide_eq_true hcond.1
        · rw [String.length_mk]
          exact regexExtract_length he

/-- Witness: C10 applied at a concrete URL whose resolution succeeds. -/
theorem resolver_length_invariant_witness :
    ("dQw4w9WgXcQ" : String).length = 11 :=
  (resolver_length_invariant "https://youtu.be/dQw4w9WgXcQ").1 "dQw4w9WgXcQ"
    (by decide)

/-! ## Lemmas about the assembler -/

/-- The templated fallback is never the empty string. -/
theorem fallbackText_ne_empty (vd : VideoDetails) : fallbackText vd ≠ "" := by
  intro h
  have hl := congrArg String.length h
  rw [fallbackText, String.length_append, String.length_append,
    String.length_append, String.length_append] at hl
  have h1 : ("This video titled \"" : String).length = 19 := by decide
  have h0 : ("" : String).length = 0 := rfl
  rw [h1, h0] at hl
  omega

/-- Concrete inputs shared by several witnesses. -/
def vd0 : VideoDetails :=
  { title := "T", description := "D", thumbnail := "thumb.jpg", channel := "C",
    duration := "1:00" }

/-- A key-point item used in witnesses. -/
def kp1 : TimeStampedContent :=
  { timestamp := 5, text := "point", type := .key_point }

/-- A code-block item used in witnesses. -/
def cb1 : TimeStampedContent :=
  { timestamp := 3, text := "code", type := .code }

/-- Segmenter output used by the C1 witness. -/
def pcW : ProcessedContent :=
  { summary := "s", keyPoints := [kp1], codeBlocks := [cb1] }

/-- C1: for every segmenter output, the assembled `timestamps` is the stable
sort by ascending timestamp of `keyPoints ++ codeBlocks`, hence non-decreasing
in the `timestamp` field, and every element of the assembled `keyPoints`
occurs in `timestamps`. -/
theorem timestamps_stable_sorted (videoId : String) (vd : VideoDetails)
    (apiKey : String) (pc : ProcessedContent) :
    (generateSummary videoId vd (some apiKey) (.ok pc)).timestamps =
      jsSortByTimestamp (pc.keyPoints ++ pc.codeBlocks) ∧
    List.Sorted tsLe (generateSummary videoId vd (some apiKey) (.ok pc)).timestamps ∧
    ∀ x ∈ (generateSummary videoId vd (some apiKey) (.ok pc)).keyPoints,
      x ∈ (generateSummary videoId vd (some apiKey) (.ok pc)).timestamps := by
  refine ⟨rfl, ?_, ?_⟩
  · exact List.sorted_insertionSort tsLe (pc.keyPoints ++ pc.codeBlocks)
  · intro x hx
    have hx' : x ∈ pc.keyPoints ++ pc.codeBlocks := List.mem_append_left _ hx
    exact (List.perm_insertionSort tsLe (pc.keyPoints ++ pc.codeBlocks)).mem_iff.mpr hx'

/-- Witness: C1 applied to a concrete segmenter output; the key point with
timestamp 5 lands in the assembled `timestamps`. -/
theorem timestamps_stable_sorted_witness :
    kp1 ∈ (generateSummary "vid" vd0 (some "k") (.ok pcW)).timestamps :=
  (timestamps_stable_sorted "vid" vd0 "k" pcW).2.2 kp1 (by decide)

/-- C2 (amended): the assembled `code` is `codeBlocks.map(block => block.text)`
verbatim — same length, entries copied unchanged; fencing is NOT stripped at
assembly time (the stripping happens only inside `generatePDF`). -/
theorem code_verbatim (videoId : String) (vd : VideoDetails) (apiKey : String)
    (pc : ProcessedContent) :
    (generateSummary videoId vd (some apiKey) (.ok pc)).code.length =
      pc.codeBlocks.length ∧
    ∀ i : Nat, (generateSummary videoId vd (some apiKey) (.ok pc)).code[i]? =
      (pc.codeBlocks[i]?).map (·.text) := by
  constructor
  · show (pc.codeBlocks.map (·.text)).length = _
    simp
  · intro i
    show (pc.codeBlocks.map (·.text))[i]? = _
    simp

/-- Segmenter output with a fenced code block, for the C2 counterexample. -/
def pcFence : ProcessedContent :=
  { summary := ""
    keyPoints := []
    codeBlocks := [{ timestamp := 0, text := "```js\nx\n```", type := .code }] }

/-- C2 counterexample: with a fenced code block, the assembled `code[0]` is
the raw fenced text, not the fence-stripped text the claim requires (the
renderer strips `\x60\x60\x60js\n` and `\x60\x60\x60` later, yielding
`"x\n"`). -/
theorem code_not_stripped_counterexample :
    (generateSummary "vid" vd0 (some "k") (.ok pcFence)).code[0]? =
      some "```js\nx\n```" ∧
    String.mk (stripFences ("```js\nx\n```" : String).data) = "x\n" ∧
    ("```js\nx\n```" : String) ≠ "x\n" := by
  refine ⟨by decide, by decide, by decide⟩

/-- C5: the assembled `text` is never empty — it is `transcriptSummary` when
that is present and non-empty, and otherwise the deterministic templated
fallback built from `videoDetails.title` and `videoDetails.channel`. -/
theorem summary_text_never_empty (videoId : String) (vd : VideoDetails)
    (apiKey : Option String) (captionFetch : Except CaptionError ProcessedContent) :
    (generateSummary videoId vd apiKey captionFetch).text ≠ "" ∧
    (∀ t, (generateSummary videoId vd apiKey captionFetch).transcriptSummary = some t →
      t ≠ "" → (generateSummary videoId vd apiKey captionFetch).text = t) ∧
    ((generateSummary videoId vd apiKey captionFetch).transcriptSummary = none →
      (generateSummary videoId vd apiKey captionFetch).text = fallbackText vd) ∧
    ((generateSummary videoId vd apiKey captionFetch).transcriptSummary = some "" →
      (generateSummary videoId vd apiKey captionFetch).text = fallbackText vd) := by
  rcases apiKey with _ | k
  · refine ⟨fallbackText_ne_empty vd, ?_, fun _ => rfl, ?_⟩
    · intro t ht
      cases ht
    · intro ht
      cases ht
  · rcases captionFetch with e | pc
    · refine ⟨fallbackText_ne_empty vd, ?_, fun _ => rfl, ?_⟩
      · intro t ht
        cases ht
      · intro ht
        cases ht
    · by_cases hs : pc.summary = ""
      · refine ⟨?_, ?_, ?_, ?_⟩
        · show jsOrString (some pc.summary) (fallbackText vd) ≠ ""
          rw [jsOrString, if_pos hs]
          exact fallbackText_ne_empty vd
        · intro t ht hne
          cases ht
          exact absurd hs hne
        · intro ht; cases ht
        · intro _
          show jsOrString (some pc.summary) (fallbackText vd) = _
          rw [jsOrString, if_pos hs]
      · refine ⟨?_, ?_, ?_, ?_⟩
        · show jsOrString (some pc.summary) (fallbackText vd) ≠ ""
          rw [jsOrString, if_neg hs]
          exact hs
        · intro t ht _
          cases ht
          show jsOrString (some pc.summary) (fallbackText vd) = _
          rw [jsOrString, if_neg hs]
        · intro ht; cases ht
        · intro ht
          injection ht with ht'
          exact absurd ht' hs

/-- Witness: C5 applied with a present, non-empty transcript summary and with
an absent one. -/
theorem summary_text_never_empty_witness :
    (generateSummary "vid" vd0 (some "k") (.ok pcW)).text = "s" ∧
    (generateSummary "vid" vd0 none (.ok pcW)).text = fallbackText vd0 :=
  ⟨(summary_text_never_empty "vid" vd0 (some "k") (.ok pcW)).2.1 "s" rfl
      (by decide),
   (summary_text_never_empty "vid" vd0 none (.ok pcW)).2.2.1 rfl⟩

/-- C6: when the caption stage throws, `generateSummary` swallows the error
and still returns a `SummaryContent` with empty `code`, `timestamps` and
`keyPoints` and the non-empty templated fallback text. -/
theorem caption_failure_recovered (videoId : String) (vd : VideoDetails)
    (apiKey : String) (e : CaptionError) :
    (generateSummary videoId vd (some apiKey) (.error e)).code = [] ∧
    (generateSummary videoId vd (some apiKey) (.error e)).timestamps = [] ∧
    (generateSummary videoId vd (some apiKey) (.error e)).keyPoints = [] ∧
    (generateSummary videoId vd (some apiKey) (.error e)).text = fallbackText vd ∧
    (generateSummary videoId vd (some apiKey) (.error e)).text ≠ "" :=
  ⟨rfl, rfl, rfl, rfl, fallbackText_ne_empty vd⟩

/-- C9: the assembled image-reference list is the thumbnail followed by the
extra references in order — both in general and on the scenario input. -/
theorem imageReferences_thumbnail_first (videoId : String) (vd : VideoDetails)
    (apiKey : Option String) (captionFetch : Except CaptionError ProcessedContent)
    (extras : List String) :
    combineImageReferences
        (generateSummary videoId vd apiKey captionFetch).imageReferences extras =
      vd.thumbnail :: extras ∧
    combineImageReferences ["thumb.jpg"] ["video-images/a.png", "https://youtu.be/xyz"] =
      ["thumb.jpg", "video-images/a.png", "https://youtu.be/xyz"] := by
  constructor
  · show [vd.thumbnail] ++ extras = _
    rfl
  · rfl

/-! ## Lemmas about the PDF renderer -/

/-- C7: for all inputs and any injected internal fault, `generatePDF` either
returns a document blob or signals exactly `AppError.pdfGeneration` — never
any other error kind, and no blob accompanies a failure. -/
theorem generatePDF_single_error (vd : VideoDetails) (summary : SummaryContent)
    (split : String → Int → List String) (pageHeight : Int)
    (internalFault : Option String) :
    (∃ b, generatePDF vd summary split pageHeight internalFault = .ok b) ∨
    generatePDF vd summary split pageHeight internalFault =
      .error AppError.pdfGeneration := by
  cases internalFault with
  | none => exact Or.inl ⟨_, rfl⟩
  | some f => exact Or.inr rfl

/-- What actually holds of every checked block in the layout: the page break
fires exactly when `cursor + neededSpace > pageHeight - 20` (for the
`neededSpace` value passed to `checkPageBreak`, not necessarily the block's
rendered height), a firing break resets the write cursor to the top margin
20, and the per-kind `neededSpace`: exact for paragraphs and image entries,
the fixed `lineHeight * 3 / 2` for links, and `lineHeight / 2` less than the
consumed height for code snippets. -/
def eventChecked (pageHeight : Int) (ev : BlockEvent) : Prop :=
  (ev.broke = true ↔ ev.yBefore + ev.checked > pageHeight - 20) ∧
  (ev.broke = true → ev.yWrite = 20) ∧
  (ev.broke = false → ev.yWrite = ev.yBefore) ∧
  (ev.kind = .paragraph → ev.advance = ev.checked) ∧
  (ev.kind = .imageEntry → ev.checked = lineHeight ∧ ev.advance = lineHeight) ∧
  (ev.kind = .linkEntry → ev.checked = lineHeight * 3 / 2) ∧
  (ev.kind = .codeSnippet → ev.advance = ev.checked + lineHeight / 2)

/-- An event of `emitBlock` is either inherited or the newly recorded one,
whose fields satisfy the `checkPageBreak` relation by construction. -/
theorem mem_emitBlock {pageHeight c a : Int} {k : BlockKind} {ls : List String}
    {st : RenderState} {ev : BlockEvent}
    (hmem : ev ∈ (emitBlock pageHeight k c a ls st).events) :
    ev ∈ st.events ∨
      (ev.kind = k ∧ ev.checked = c ∧ ev.advance = a ∧
       (ev.broke = true ↔ ev.yBefore + c > pageHeight - 20) ∧
       (ev.broke = true → ev.yWrite = 20) ∧
       (ev.broke = false → ev.yWrite = ev.yBefore)) := by
  by_cases hc : st.y + c > pageHeight - 20
  · have hev : (emitBlock pageHeight k c a ls st).events =
        st.events ++ [{ kind := k, yBefore := st.y, checked := c, broke := true,
                        yWrite := 20, advance := a, lines := ls }] := by
      unfold emitBlock checkPageBreak
      rw [if_pos hc]
    rw [hev] at hmem
    rcases List.mem_append.mp hmem with h | h
    · exact Or.inl h
    · have he := List.mem_singleton.mp h
      subst he
      exact Or.inr ⟨rfl, rfl, rfl, ⟨fun _ => hc, fun _ => rfl⟩,
        fun _ => rfl, fun hb => Bool.noConfusion hb⟩
  · have hev : (emitBlock pageHeight k c a ls st).events =
        st.events ++ [{ kind := k, yBefore := st.y, checked := c, broke := false,
                        yWrite := st.y, advance := a, lines := ls }] := by
      unfold emitBlock checkPageBreak
      rw [if_neg hc]
    rw [hev] at hmem
    rcases List.mem_append.mp hmem with h | h
    · exact Or.inl h
    · have he := List.mem_singleton.mp h
      subst he
      exact Or.inr ⟨rfl, rfl, rfl, ⟨fun hb => Bool.noConfusion hb, fun hgt => absurd hgt hc⟩,
        fun hb => Bool.noConfusion hb, fun _ => rfl⟩

/-- Folding a block-emitting step preserves a property of all trace events. -/
theorem foldl_emit_preserve {α : Type} (f : RenderState → α → RenderState)
    (P : BlockEvent → Prop)
    (hf : ∀ st x ev, ev ∈ (f st x).events → ev ∈ st.events ∨ P ev)
    (l : List α) (st : RenderState)
    (hst : ∀ ev ∈ st.events, P ev) :
    ∀ ev ∈ (l.foldl f st).events, P ev := by
  induction l generalizing st with
  | nil => exact hst
  | cons x xs ih =>
    exact ih (f st x) (fun ev hev => (hf st x ev hev).elim (hst ev) id)

/-- Package the `mem_emitBlock` facts about a fresh event into the invariant,
given the per-kind side conditions of the emitting call. -/
theorem eventChecked_of_emit {pageHeight : Int} {ev : BlockEvent}
    {k : BlockKind} {c a : Int}
    (hk : ev.kind = k) (hc : ev.checked = c) (ha : ev.advance = a)
    (hiff : ev.broke = true ↔ ev.yBefore + c > pageHeight - 20)
    (hbt : ev.broke = true → ev.yWrite = 20)
    (hbf : ev.broke = false → ev.yWrite = ev.yBefore)
    (h4 : k = .paragraph → a = c)
    (h5 : k = .imageEntry → c = lineHeight ∧ a = lineHeight)
    (h6 : k = .linkEntry → c = lineHeight * 3 / 2)
    (h7 : k = .codeSnippet → a = c + lineHeight / 2) :
    eventChecked pageHeight ev := by
  refine ⟨by rw [hc]; exact hiff, hbt, hbf, ?_, ?_, ?_, ?_⟩
  · intro hp
    rw [ha, hc]
    exact h4 (hk.symm.trans hp)
  · intro hp
    rw [ha, hc]
    exact h5 (hk.symm.trans hp)
  · intro hp
    rw [hc]
    exact h6 (hk.symm.trans hp)
  · intro hp
    rw [ha, hc]
    exact h7 (hk.symm.trans hp)

/-- The paragraphs loop only adds invariant-satisfying events. -/
theorem renderParagraphs_checked (text : String)
    (split : String → Int → List String) (pageHeight : Int) (st : RenderState)
    (hst : ∀ ev ∈ st.events, eventChecked pageHeight ev) :
    ∀ ev ∈ (renderParagraphs text split pageHeight st).events,
      eventChecked pageHeight ev := by
  apply foldl_emit_preserve _ _ ?_ _ _ hst
  intro st' p ev hev
  refine (mem_emitBlock hev).imp id ?_
  rintro ⟨hk, hc, ha, hiff, hbt, hbf⟩
  exact eventChecked_of_emit hk hc ha hiff hbt hbf (fun _ => rfl)
    (fun h => BlockKind.noConfusion h) (fun h => BlockKind.noConfusion h)
    (fun h => BlockKind.noConfusion h)

/-- The code section (heading plus snippet loop) only adds
invariant-satisfying events; for each snippet the advance exceeds the checked
space by exactly `lineHeight / 2`. -/
theorem renderCodeSection_checked (code : List String)
    (split : String → Int → List String) (pageHeight : Int) (st : RenderState)
    (hst : ∀ ev ∈ st.events, eventChecked pageHeight ev) :
    ∀ ev ∈ (renderCodeSection code split pageHeight st).events,
      eventChecked pageHeight ev := by
  unfold renderCodeSection
  split
  · have hinit : ∀ ev ∈ (emitBlock pageHeight .sectionHeader (lineHeight * 2)
        (lineHeight / 2 + lineHeight) ["Code Snippets"] st).events,
        eventChecked pageHeight ev := by
      intro ev hev
      rcases mem_emitBlock hev with h | h
      · exact hst ev h
      · obtain ⟨hk, hc, ha, hiff, hbt, hbf⟩ := h
        exact eventChecked_of_emit hk hc ha hiff hbt hbf
          (fun h => BlockKind.noConfusion h) (fun h => BlockKind.noConfusion h)
          (fun h => BlockKind.noConfusion h) (fun h => BlockKind.noConfusion h)
    apply foldl_emit_preserve _ _ ?_ _ _ hinit
    intro st' snippet ev hev
    refine (mem_emitBlock hev).imp id ?_
    rintro ⟨hk, hc, ha, hiff, hbt, hbf⟩
    refine eventChecked_of_emit hk hc ha hiff hbt hbf
      (fun h => BlockKind.noConfusion h) (fun h => BlockKind.noConfusion h)
      (fun h => BlockKind.noConfusion h) (fun _ => ?_)
    unfold lineHeight
    omega
  · exact hst

/-- The links section only adds invariant-satisfying events; each link is
checked against the fixed `lineHeight * 3 / 2`. -/
theorem renderLinksSection_checked (links : List String)
    (split : String → Int → List String) (pageHeight : Int) (st : RenderState)
    (hst : ∀ ev ∈ st.events, eventChecked pageHeight ev) :
    ∀ ev ∈ (renderLinksSection links split pageHeight st).events,
      eventChecked pageHeight ev := by
  unfold renderLinksSection
  split
  · have hinit : ∀ ev ∈ (emitBlock pageHeight .sectionHeader (lineHeight * 2)
        lineHeight ["Referenced Links"] st).events,
        eventChecked pageHeight ev := by
      intro ev hev
      rcases mem_emitBlock hev with h | h
      · exact hst ev h
      · obtain ⟨hk, hc, ha, hiff, hbt, hbf⟩ := h
        exact eventChecked_of_emit hk hc ha hiff hbt hbf
          (fun h => BlockKind.noConfusion h) (fun h => BlockKind.noConfusion h)
          (fun h => BlockKind.noConfusion h) (fun h => BlockKind.noConfusion h)
    apply foldl_emit_preserve _ _ ?_ _ _ hinit
    intro st' link ev hev
    refine (mem_emitBlock hev).imp id ?_
    rintro ⟨hk, hc, ha, hiff, hbt, hbf⟩
    exact eventChecked_of_emit hk hc ha hiff hbt hbf
      (fun h => BlockKind.noConfusion h) (fun h => BlockKind.noConfusion h)
      (fun _ => rfl) (fun h => BlockKind.noConfusion h)
  · exact hst

/-- The images section only adds invariant-satisfying events; each entry is
checked against (and advances by) exactly `lineHeight`. -/
theorem renderImagesSection_checked (imageReferences : List String)
    (pageHeight : Int) (st : RenderState)
    (hst : ∀ ev ∈ st.events, eventChecked pageHeight ev) :
    ∀ ev ∈ (renderImagesSection imageReferences pageHeight st).events,
      eventChecked pageHeight ev := by
  unfold renderImagesSection
  split
  · have hinit : ∀ ev ∈ (emitBlock pageHeight .sectionHeader (lineHeight * 2)
        lineHeight ["Image References"] st).events,
        eventChecked pageHeight ev := by
      intro ev hev
      rcases mem_emitBlock hev with h | h
      · exact hst ev h
      · obtain ⟨hk, hc, ha, hiff, hbt, hbf⟩ := h
        exact eventChecked_of_emit hk hc ha hiff hbt hbf
          (fun h => BlockKind.noConfusion h) (fun h => BlockKind.noConfusion h)
          (fun h => BlockKind.noConfusion h) (fun h => BlockKind.noConfusion h)
    apply foldl_emit_preserve _ _ ?_ _ _ hinit
    intro st' img ev hev
    refine (mem_emitBlock hev).imp id ?_
    rintro ⟨hk, hc, ha, hiff, hbt, hbf⟩
    exact eventChecked_of_emit hk hc ha hiff hbt hbf
      (fun h => BlockKind.noConfusion h) (fun _ => ⟨rfl, rfl⟩)
      (fun h => BlockKind.noConfusion h) (fun h => BlockKind.noConfusion h)
  · exact hst

/-- C8 (amended): before each logical block `generatePDF` runs
`checkPageBreak` with a per-kind `neededSpace` estimate — equal to the
consumed height for paragraphs and image entries, but the fixed
`lineHeight * 3 / 2` for links and `lineHeight / 2` less than the consumed
height for code snippets; when the cursor plus that estimate exceeds
`pageHeight - 20` a new page is started and the cursor is reset to the top
margin 20, and otherwise the block is written at the unchanged cursor. -/
theorem pageBreak_per_block (vd : VideoDetails) (summary : SummaryContent)
    (split : String → Int → List String) (pageHeight : Int) :
    ∀ ev ∈ (renderLayout vd summary split pageHeight).events,
      eventChecked pageHeight ev := by
  unfold renderLayout
  apply renderImagesSection_checked
  apply renderLinksSection_checked
  apply renderCodeSection_checked
  apply renderParagraphs_checked
  intro ev hev
  cases hev

/-- Minimal summary input used by the C8 witness. -/
def sum0 : SummaryContent :=
  { text := "T", code := [], links := [], imageReferences := []
    timestamps := [], keyPoints := [], transcriptSummary := none }

/-- One-line wrap model used by the C8 witness. -/
def split0 : String → Int → List String := fun s _ => [s]

/-- The single paragraph event produced on the minimal input. -/
def ev0 : BlockEvent :=
  { kind := .paragraph, yBefore := 80, checked := 16, broke := false,
    yWrite := 80, advance := 16, lines := ["T"] }

/-- Witness: the amended C8 applied to the concrete paragraph event of a
minimal render. -/
theorem pageBreak_per_block_witness : eventChecked 297 ev0 :=
  pageBreak_per_block vd0 sum0 split0 297 ev0 (by decide)

/-- Fixed-width chunking (at most 40 characters per line), the wrap model of
the C8 counterexample; the fuel equals the list length, which always
suffices. -/
def chunkAux : Nat → List Char → List (List Char)
  | 0, _ => []
  | _ + 1, [] => []
  | fuel + 1, c :: cs => ((c :: cs).take 40) :: chunkAux fuel ((c :: cs).drop 40)

/-- Wrap model for the C8 counterexample: lines of at most 40 characters. -/
def splitCE : String → Int → List String :=
  fun s _ => (chunkAux s.data.length s.data).map String.mk

/-- A 100-character link; under `splitCE` it wraps to 3 lines, so its
rendered height is `3 * 6 + 2 = 20` while its page-break check only reserves
`lineHeight * 3 / 2 = 15`. -/
def linkCE : String := String.mk (List.replicate 100 'h')

/-- Summary whose paragraphs park the cursor at 262 when the first link is
written: nine one-line paragraphs and one three-line paragraph. -/
def sumCE : SummaryContent :=
  { text := "b\n\nb\n\nb\n\nb\n\nb\n\nb\n\nb\n\nb\n\nb\n\n" ++
      String.mk (List.replicate 100 'a')
    code := []
    links := [linkCE]
    imageReferences := []
    timestamps := [], keyPoints := [], transcriptSummary := none }

/-- C8 counterexample: on an A4 page (height 297) there is a link block that
is written at cursor 262 without any page break even though its rendered
height 20 overruns `pageHeight - 20 = 277` (262 + 20 = 282 > 277): the check
only reserved `lineHeight * 3 / 2 = 15`, so the claim that a new page is
started whenever `cursor + blockHeight` exceeds `pageHeight - margin` fails. -/
theorem pageBreak_counterexample :
    ∃ ev ∈ (renderLayout vd0 sumCE splitCE 297).events,
      ev.kind = BlockKind.linkEntry ∧ ev.broke = false ∧
      ev.yWrite = ev.yBefore ∧ ev.yBefore + ev.advance > 297 - 20 := by
  decide

end YTSum
